import Mathlib

/-
  Verification of the button driver layer (src/drivers/drv_button.c) of the
  Transponder_v2 repository.

  The driver code under src/ is embedded directly.  The external detection
  engine (the `button` software package: Button_Create, Button_Attach,
  Button_Delete, Button_Process, Get_Button_State, Get_Button_Event) and the
  board pin layer (rt_pin_mode) are not part of src/; they are modelled from
  the design document, which specifies them only at their boundary.
-/

namespace DrvButton

/-- Modelled from the spec: the closed enumeration of event kinds of the
external detection engine (press, release, double-click, long-press,
long-press-release, continuous-press, continuous-press-release), plus the
sentinel NONE_TRIGGER and the wildcard BUTTON_ALL_RIGGER used only as an
attach-time selector.  Constructor names follow the identifiers used by the
driver source. -/
inductive Button_Event where
  | BUTTON_DOWM
  | BUTTON_UP
  | BUTTON_DOUBLE
  | BUTTON_LONG
  | BUTTON_LONG_FREE
  | BUTTON_CONTINUOS
  | BUTTON_CONTINUOS_FREE
  | BUTTON_ALL_RIGGER
  | NONE_TRIGGER
  deriving DecidableEq

/-- The six static button entity storages of drv_button.c (key1_btn .. key6_btn).
A value of this type plays the role of the C pointer `Button_t *` returned by
drv_button_get_handle: pointer identity is constructor identity. -/
inductive ButtonRef where
  | key1_btn
  | key2_btn
  | key3_btn
  | key4_btn
  | key5_btn
  | key6_btn
  deriving DecidableEq

/-- The six static level-read functions of drv_button.c, identified by name.
A level source is an opaque function identity here; the driver never calls it
itself, it only hands it to the external engine at creation time. -/
inductive LevelSrc where
  | key1_read_level
  | key2_read_level
  | key3_read_level
  | key4_read_level
  | key5_read_level
  | key6_read_level
  deriving DecidableEq

/-- Callback function pointers, as opaque identities.  `button_callback` is the
driver's internal logging callback (drv_button.c line 150); `user n` stands for
any externally supplied handler. -/
inductive Callback where
  | button_callback
  | user : Nat → Callback
  deriving DecidableEq

/-- The six GPIO pins used by the driver (KEY1_PIN .. KEY6_PIN). -/
inductive Pin where
  | KEY1_PIN
  | KEY2_PIN
  | KEY3_PIN
  | KEY4_PIN
  | KEY5_PIN
  | KEY6_PIN
  deriving DecidableEq

/-- GPIO pin modes of the board layer; the driver only ever requests
PIN_MODE_INPUT_PULLUP. -/
inductive PinMode where
  | PIN_MODE_OUTPUT
  | PIN_MODE_INPUT
  | PIN_MODE_INPUT_PULLUP
  deriving DecidableEq

/-- The pressed-level constant PIN_LOW of the board layer. -/
def PIN_LOW : Nat := 0

/-- KEY_TRIGGER_LEVEL of drv_button.c: the electrical level meaning pressed. -/
def KEY_TRIGGER_LEVEL : Nat := PIN_LOW

/-- The RT-Thread success indicator RT_EOK. -/
def RT_EOK : Int := 0

/-- The RT-Thread generic error constant RT_ERROR; failures return -RT_ERROR. -/
def RT_ERROR : Int := 1

/-- Modelled from the spec: a Button Entity of the external detection engine.
It owns a name, a level source (never reassigned after creation), a trigger
polarity, a per-event callback table with at most one callback per event kind,
and the transient current_state / current_event fields written by the engine
during a poll tick. -/
structure Button_t where
  Name : String
  level_source : LevelSrc
  trigger_level : Nat
  event_table : Button_Event → Option Callback
  current_state : Button_Event
  current_event : Button_Event

/-- The whole mutable world the driver touches: the board pin-mode map, the six
static entity storages, and the external engine's registered set (which
entities its global poll processes). -/
@[ext]
structure SysState where
  pin_mode : Pin → Option PinMode
  buttons : ButtonRef → Button_t
  registered : ButtonRef → Bool

/-- Modelled from the spec: the engine operation create(name, storage,
level_source_fn, trigger_level).  It constructs the entity with an empty event
table and the NONE_TRIGGER sentinel in both transient fields. -/
def Button_Create (name : String) (src : LevelSrc) (trigger : Nat) : Button_t :=
  { Name := name
    level_source := src
    trigger_level := trigger
    event_table := fun _ => none
    current_state := Button_Event.NONE_TRIGGER
    current_event := Button_Event.NONE_TRIGGER }

/-- Modelled from the spec: create also registers the storage with the engine,
so the global poll will process it. -/
def Button_Create_at (st : SysState) (ref : ButtonRef) (name : String)
    (src : LevelSrc) (trigger : Nat) : SysState :=
  { st with
    buttons := fun r => if r = ref then Button_Create name src trigger else st.buttons r
    registered := fun r => if r = ref then true else st.registered r }

/-- Modelled from the spec: the engine operation attach(entity, event_kind,
callback_fn).  It installs the callback for the given kind, overwriting any
previous binding; attaching with the wildcard kind installs the same callback
for every kind. -/
def Button_Attach (btn : Button_t) (event : Button_Event) (cb : Callback) : Button_t :=
  if event = Button_Event.BUTTON_ALL_RIGGER then
    { btn with event_table := fun _ => some cb }
  else
    { btn with event_table := fun k => if k = event then some cb else btn.event_table k }

/-- Attach applied through a reference into the shared state. -/
def Button_Attach_at (st : SysState) (ref : ButtonRef) (event : Button_Event)
    (cb : Callback) : SysState :=
  { st with
    buttons := fun r => if r = ref then Button_Attach (st.buttons ref) event cb else st.buttons r }

/-- Modelled from the spec: the engine operation delete(entity) releases the
entity's association with the detection engine (removes it from the registered
set); the storage itself is static and stays in place. -/
def Button_Delete_at (st : SysState) (ref : ButtonRef) : SysState :=
  { st with registered := fun r => if r = ref then false else st.registered r }

/-- Modelled from the spec: the engine accessor for the entity's cached state. -/
def Get_Button_State (btn : Button_t) : Button_Event :=
  btn.current_state

/-- Modelled from the spec: the engine accessor for the entity's cached event. -/
def Get_Button_Event (btn : Button_t) : Button_Event :=
  btn.current_event

/-- The registry order in which the global poll visits the entities. -/
def registryOrder : List ButtonRef :=
  [ButtonRef.key1_btn, ButtonRef.key2_btn, ButtonRef.key3_btn,
   ButtonRef.key4_btn, ButtonRef.key5_btn, ButtonRef.key6_btn]

/-- Modelled from the spec: the callback invocations one poll tick performs for
one entity.  The detection state machine itself is a black box, so the tick is
parametrised by an emission oracle giving, per entity, the event kind the
engine emits this tick (none meaning no transition).  An entity contributes an
invocation exactly when it is registered, the engine emits a kind on it, and
its event table binds a callback to that kind. -/
def traceFor (emit : ButtonRef → Option Button_Event) (st : SysState)
    (r : ButtonRef) : List (ButtonRef × Callback) :=
  if st.registered r then
    match emit r with
    | some e =>
      match (st.buttons r).event_table e with
      | some cb => [(r, cb)]
      | none => []
    | none => []
  else []

/-- Modelled from the spec: the full synchronous invocation trace of one poll
tick, in registry order. -/
def pollTrace (emit : ButtonRef → Option Button_Event) (st : SysState) :
    List (ButtonRef × Callback) :=
  traceFor emit st ButtonRef.key1_btn ++ traceFor emit st ButtonRef.key2_btn ++
  traceFor emit st ButtonRef.key3_btn ++ traceFor emit st ButtonRef.key4_btn ++
  traceFor emit st ButtonRef.key5_btn ++ traceFor emit st ButtonRef.key6_btn

/-- Modelled from the spec: the engine operation process_all_registered().
For each registered entity it consults the emission oracle; on a transition it
records the emitted kind in current_event and synchronously invokes the
matching callback from the event table, if any (the invocations are returned
as the ordered trace); with no bound callback the transition is still
recorded.  Unregistered entities are untouched. -/
def Button_Process (emit : ButtonRef → Option Button_Event) (st : SysState) :
    SysState × List (ButtonRef × Callback) :=
  ({ st with
      buttons := fun r =>
        if st.registered r then
          match emit r with
          | some e => { st.buttons r with current_event := e }
          | none => st.buttons r
        else st.buttons r },
   pollTrace emit st)

/-- The name the driver gives each entity at creation (drv_button_init). -/
def nameOf : ButtonRef → String
  | ButtonRef.key1_btn => "key1"
  | ButtonRef.key2_btn => "key2"
  | ButtonRef.key3_btn => "key3"
  | ButtonRef.key4_btn => "key4"
  | ButtonRef.key5_btn => "key5"
  | ButtonRef.key6_btn => "key6"

/-- The level source the driver gives each entity at creation. -/
def srcOf : ButtonRef → LevelSrc
  | ButtonRef.key1_btn => LevelSrc.key1_read_level
  | ButtonRef.key2_btn => LevelSrc.key2_read_level
  | ButtonRef.key3_btn => LevelSrc.key3_read_level
  | ButtonRef.key4_btn => LevelSrc.key4_read_level
  | ButtonRef.key5_btn => LevelSrc.key5_read_level
  | ButtonRef.key6_btn => LevelSrc.key6_read_level

/-- drv_button_init (drv_button.c lines 199-230): configure the six key pins
as pulled-up inputs (rt_pin_mode returns no status, so the calls cannot report
failure to the driver), create the six entities with their level sources and
KEY_TRIGGER_LEVEL, attach button_callback with the wildcard kind to each, and
return RT_EOK. -/
def drv_button_init (st : SysState) : Int × SysState :=
  let p1 := { st with pin_mode := fun p => if p = Pin.KEY1_PIN then some PinMode.PIN_MODE_INPUT_PULLUP else st.pin_mode p }
  let p2 := { p1 with pin_mode := fun p => if p = Pin.KEY2_PIN then some PinMode.PIN_MODE_INPUT_PULLUP else p1.pin_mode p }
  let p3 := { p2 with pin_mode := fun p => if p = Pin.KEY3_PIN then some PinMode.PIN_MODE_INPUT_PULLUP else p2.pin_mode p }
  let p4 := { p3 with pin_mode := fun p => if p = Pin.KEY4_PIN then some PinMode.PIN_MODE_INPUT_PULLUP else p3.pin_mode p }
  let p5 := { p4 with pin_mode := fun p => if p = Pin.KEY5_PIN then some PinMode.PIN_MODE_INPUT_PULLUP else p4.pin_mode p }
  let p6 := { p5 with pin_mode := fun p => if p = Pin.KEY6_PIN then some PinMode.PIN_MODE_INPUT_PULLUP else p5.pin_mode p }
  let c1 := Button_Create_at p6 ButtonRef.key1_btn "key1" LevelSrc.key1_read_level KEY_TRIGGER_LEVEL
  let c2 := Button_Create_at c1 ButtonRef.key2_btn "key2" LevelSrc.key2_read_level KEY_TRIGGER_LEVEL
  let c3 := Button_Create_at c2 ButtonRef.key3_btn "key3" LevelSrc.key3_read_level KEY_TRIGGER_LEVEL
  let c4 := Button_Create_at c3 ButtonRef.key4_btn "key4" LevelSrc.key4_read_level KEY_TRIGGER_LEVEL
  let c5 := Button_Create_at c4 ButtonRef.key5_btn "key5" LevelSrc.key5_read_level KEY_TRIGGER_LEVEL
  let c6 := Button_Create_at c5 ButtonRef.key6_btn "key6" LevelSrc.key6_read_level KEY_TRIGGER_LEVEL
  let a1 := Button_Attach_at c6 ButtonRef.key1_btn Button_Event.BUTTON_ALL_RIGGER Callback.button_callback
  let a2 := Button_Attach_at a1 ButtonRef.key2_btn Button_Event.BUTTON_ALL_RIGGER Callback.button_callback
  let a3 := Button_Attach_at a2 ButtonRef.key3_btn Button_Event.BUTTON_ALL_RIGGER Callback.button_callback
  let a4 := Button_Attach_at a3 ButtonRef.key4_btn Button_Event.BUTTON_ALL_RIGGER Callback.button_callback
  let a5 := Button_Attach_at a4 ButtonRef.key5_btn Button_Event.BUTTON_ALL_RIGGER Callback.button_callback
  let a6 := Button_Attach_at a5 ButtonRef.key6_btn Button_Event.BUTTON_ALL_RIGGER Callback.button_callback
  (RT_EOK, a6)

/-- The state drv_button_init leaves behind, written out directly: every key
pin pulled up, every entity freshly created with button_callback on every
event kind, every entity registered with the engine. -/
def initedState : SysState :=
  { pin_mode := fun _ => some PinMode.PIN_MODE_INPUT_PULLUP
    buttons := fun r =>
      Button_Attach (Button_Create (nameOf r) (srcOf r) KEY_TRIGGER_LEVEL)
        Button_Event.BUTTON_ALL_RIGGER Callback.button_callback
    registered := fun _ => true }

/-- drv_button_get_handle (drv_button.c lines 240-273): null check, then the
chain of rt_strcmp comparisons against "key1" .. "key6"; unknown names fall
through to RT_NULL.  The C argument `const char *key_name` is an optional
string, none standing for RT_NULL. -/
def drv_button_get_handle (key_name : Option String) : Option ButtonRef :=
  match key_name with
  | none => none
  | some s =>
    if s = "key1" then some ButtonRef.key1_btn
    else if s = "key2" then some ButtonRef.key2_btn
    else if s = "key3" then some ButtonRef.key3_btn
    else if s = "key4" then some ButtonRef.key4_btn
    else if s = "key5" then some ButtonRef.key5_btn
    else if s = "key6" then some ButtonRef.key6_btn
    else none

/-- drv_button_deinit (drv_button.c lines 281-296): Button_Delete on each of
the six entities, then RT_EOK. -/
def drv_button_deinit (st : SysState) : Int × SysState :=
  let d1 := Button_Delete_at st ButtonRef.key1_btn
  let d2 := Button_Delete_at d1 ButtonRef.key2_btn
  let d3 := Button_Delete_at d2 ButtonRef.key3_btn
  let d4 := Button_Delete_at d3 ButtonRef.key4_btn
  let d5 := Button_Delete_at d4 ButtonRef.key5_btn
  let d6 := Button_Delete_at d5 ButtonRef.key6_btn
  (RT_EOK, d6)

/-- drv_button_process (drv_button.c lines 303-306): the single call into the
engine's global poll. -/
def drv_button_process (emit : ButtonRef → Option Button_Event) (st : SysState) :
    SysState × List (ButtonRef × Callback) :=
  Button_Process emit st

/-- drv_button_get_state (drv_button.c lines 319-327): resolve the handle; on
success return the engine's cached state, otherwise NONE_TRIGGER.  The state
is threaded through unchanged, mirroring that the C body performs no write. -/
def drv_button_get_state (st : SysState) (key_name : Option String) :
    Button_Event × SysState :=
  match drv_button_get_handle key_name with
  | some ref => (Get_Button_State (st.buttons ref), st)
  | none => (Button_Event.NONE_TRIGGER, st)

/-- drv_button_get_event (drv_button.c lines 340-348): resolve the handle; on
success return the engine's cached event, otherwise NONE_TRIGGER. -/
def drv_button_get_event (st : SysState) (key_name : Option String) :
    Button_Event × SysState :=
  match drv_button_get_handle key_name with
  | some ref => (Get_Button_Event (st.buttons ref), st)
  | none => (Button_Event.NONE_TRIGGER, st)

/-- drv_button_attach_callback (drv_button.c lines 360-369): resolve the
handle; when both the handle and the callback are non-null, forward to the
engine's attach and return RT_EOK, otherwise return -RT_ERROR leaving the
state untouched. -/
def drv_button_attach_callback (st : SysState) (key_name : Option String)
    (event : Button_Event) (callback : Option Callback) : Int × SysState :=
  match drv_button_get_handle key_name, callback with
  | some ref, some cb => (RT_EOK, Button_Attach_at st ref event cb)
  | some _, none => (-RT_ERROR, st)
  | none, _ => (-RT_ERROR, st)

/-- The configured name set of the registry. -/
def validNames : List String := ["key1", "key2", "key3", "key4", "key5", "key6"]

/-- A concrete pre-initialization state used by the concrete witnesses. -/
def sampleState : SysState :=
  { pin_mode := fun _ => none
    buttons := fun _ => Button_Create "" LevelSrc.key1_read_level 0
    registered := fun _ => false }

/-! Helper lemmas shared by the claim theorems. -/

/-- Lookup sends the name the driver configured for each entity back to it. -/
theorem handle_nameOf (r : ButtonRef) :
    drv_button_get_handle (some (nameOf r)) = some r := by
  cases r <;> rfl

/-- Lookup rejects every name outside the configured set. -/
theorem handle_unknown (s : String) (hs : s ∉ validNames) :
    drv_button_get_handle (some s) = none := by
  simp only [validNames, List.mem_cons, List.not_mem_nil, or_false] at hs
  push_neg at hs
  obtain ⟨h1, h2, h3, h4, h5, h6⟩ := hs
  simp [drv_button_get_handle, h1, h2, h3, h4, h5, h6]

/-- Lookup of the null name is the null handle. -/
theorem handle_null : drv_button_get_handle none = none := rfl

/-- A name whose lookup succeeds lies in the configured set. -/
theorem handle_some_mem (s : String) (r : ButtonRef)
    (h : drv_button_get_handle (some s) = some r) : s ∈ validNames := by
  by_contra hs
  rw [handle_unknown s hs] at h
  exact Option.noConfusion h

/-- Attaching binds the requested kind to the callback, through either branch
of the wildcard test. -/
theorem Button_Attach_table_self (btn : Button_t) (e : Button_Event) (cb : Callback) :
    (Button_Attach btn e cb).event_table e = some cb := by
  unfold Button_Attach
  split <;> simp

/-- Attaching with the wildcard kind binds every kind to the callback. -/
theorem Button_Attach_all (btn : Button_t) (cb : Callback) (k : Button_Event) :
    (Button_Attach btn Button_Event.BUTTON_ALL_RIGGER cb).event_table k = some cb := by
  rfl

/-- Attaching with a specific kind leaves every other kind's binding alone. -/
theorem Button_Attach_table_other (btn : Button_t) (e k : Button_Event) (cb : Callback)
    (he : e ≠ Button_Event.BUTTON_ALL_RIGGER) (hk : k ≠ e) :
    (Button_Attach btn e cb).event_table k = btn.event_table k := by
  unfold Button_Attach
  rw [if_neg he]
  simp [hk]

/-- Attaching never changes the name, level source, trigger level or the
transient fields of the entity. -/
theorem Button_Attach_frame (btn : Button_t) (e : Button_Event) (cb : Callback) :
    (Button_Attach btn e cb).Name = btn.Name ∧
    (Button_Attach btn e cb).level_source = btn.level_source ∧
    (Button_Attach btn e cb).trigger_level = btn.trigger_level ∧
    (Button_Attach btn e cb).current_state = btn.current_state ∧
    (Button_Attach btn e cb).current_event = btn.current_event := by
  unfold Button_Attach
  split <;> exact ⟨rfl, rfl, rfl, rfl, rfl⟩

/-- The pointed-to attach rewrites only the target entity. -/
theorem Button_Attach_at_buttons (st : SysState) (ref : ButtonRef)
    (e : Button_Event) (cb : Callback) :
    (Button_Attach_at st ref e cb).buttons ref = Button_Attach (st.buttons ref) e cb ∧
    (∀ r, r ≠ ref → (Button_Attach_at st ref e cb).buttons r = st.buttons r) ∧
    (Button_Attach_at st ref e cb).registered = st.registered ∧
    (Button_Attach_at st ref e cb).pin_mode = st.pin_mode := by
  refine ⟨by simp [Button_Attach_at], fun r hr => by simp [Button_Attach_at, hr], rfl, rfl⟩

/-- On a resolvable name and a present callback, the driver's attach returns
RT_EOK and performs exactly the engine attach on the resolved entity. -/
theorem attach_success (st : SysState) (name : Option String) (ref : ButtonRef)
    (e : Button_Event) (cb : Callback)
    (h : drv_button_get_handle name = some ref) :
    drv_button_attach_callback st name e (some cb) = (RT_EOK, Button_Attach_at st ref e cb) := by
  unfold drv_button_attach_callback
  rw [h]

/-- On an unresolvable name or an absent callback, the driver's attach returns
-RT_ERROR and the state unchanged. -/
theorem attach_fail (st : SysState) (name : Option String)
    (e : Button_Event) (cb : Option Callback)
    (h : drv_button_get_handle name = none ∨ cb = none) :
    drv_button_attach_callback st name e cb = (-RT_ERROR, st) := by
  unfold drv_button_attach_callback
  rcases h with h | h
  · rw [h]
  · subst h
    cases hh : drv_button_get_handle name <;> rfl

/-- Initialization ignores the incoming state: it rebuilds every pin mode,
every entity and every registration, landing in initedState. -/
theorem drv_button_init_eq (st : SysState) :
    drv_button_init st = (RT_EOK, initedState) := by
  unfold drv_button_init initedState
  refine Prod.ext rfl (SysState.ext ?_ ?_ ?_)
  · funext p
    cases p <;> rfl
  · funext r
    cases r <;> rfl
  · funext r
    cases r <;> rfl

/-- Deinitialization returns RT_EOK and clears exactly the registered set. -/
theorem drv_button_deinit_eq (st : SysState) :
    drv_button_deinit st =
      (RT_EOK, { st with registered := fun _ => false }) := by
  unfold drv_button_deinit
  refine Prod.ext rfl (SysState.ext rfl rfl ?_)
  funext r
  cases r <;> rfl

/-- Every invocation an entity contributes to the trace carries that entity as
its first component. -/
theorem traceFor_fst (emit : ButtonRef → Option Button_Event) (st : SysState)
    (r : ButtonRef) (p : ButtonRef × Callback) (hp : p ∈ traceFor emit st r) :
    p.1 = r := by
  unfold traceFor at hp
  split at hp
  · split at hp
    · split at hp
      · rcases List.mem_singleton.mp hp with rfl
        rfl
      · exact absurd hp (List.not_mem_nil p)
    · exact absurd hp (List.not_mem_nil p)
  · exact absurd hp (List.not_mem_nil p)

/-- Filtering the trace block of a different entity for ref gives nothing. -/
theorem traceFor_filter_ne (emit : ButtonRef → Option Button_Event) (st : SysState)
    (r ref : ButtonRef) (h : r ≠ ref) :
    (traceFor emit st r).filter (fun p => decide (p.1 = ref)) = [] := by
  rw [List.filter_eq_nil_iff]
  intro p hp
  rw [traceFor_fst emit st r p hp]
  simpa using h

/-- Filtering an entity's own trace block for it keeps the whole block. -/
theorem traceFor_filter_self (emit : ButtonRef → Option Button_Event) (st : SysState)
    (ref : ButtonRef) :
    (traceFor emit st ref).filter (fun p => decide (p.1 = ref)) = traceFor emit st ref := by
  rw [List.filter_eq_self]
  intro p hp
  rw [traceFor_fst emit st ref p hp]
  simp

/-- The invocations of a poll tick that concern one entity are exactly that
entity's own trace block. -/
theorem pollTrace_filter (emit : ButtonRef → Option Button_Event) (st : SysState)
    (ref : ButtonRef) :
    (pollTrace emit st).filter (fun p => decide (p.1 = ref)) = traceFor emit st ref := by
  unfold pollTrace
  cases ref <;>
    simp [List.filter_append, traceFor_filter_self, traceFor_filter_ne]

/-- An entity with a registered transition and a bound callback contributes
exactly one invocation, of exactly that callback. -/
theorem traceFor_hit (emit : ButtonRef → Option Button_Event) (st : SysState)
    (ref : ButtonRef) (e : Button_Event) (cb : Callback)
    (hreg : st.registered ref = true) (hemit : emit ref = some e)
    (hcb : (st.buttons ref).event_table e = some cb) :
    traceFor emit st ref = [(ref, cb)] := by
  simp [traceFor, hreg, hemit, hcb]

/-- An entity with a registered transition but no bound callback contributes
no invocation. -/
theorem traceFor_miss (emit : ButtonRef → Option Button_Event) (st : SysState)
    (ref : ButtonRef) (e : Button_Event)
    (hreg : st.registered ref = true) (hemit : emit ref = some e)
    (hcb : (st.buttons ref).event_table e = none) :
    traceFor emit st ref = [] := by
  simp [traceFor, hreg, hemit, hcb]

/-- A poll tick records the emitted kind of every registered entity with a
transition in its current_event field. -/
theorem Button_Process_records (emit : ButtonRef → Option Button_Event)
    (st : SysState) (r : ButtonRef) (e : Button_Event)
    (hreg : st.registered r = true) (hemit : emit r = some e) :
    ((Button_Process emit st).1.buttons r).current_event = e := by
  simp [Button_Process, hreg, hemit]

/-- The trace component of a poll tick is the ordered invocation trace. -/
theorem Button_Process_trace (emit : ButtonRef → Option Button_Event) (st : SysState) :
    (Button_Process emit st).2 = pollTrace emit st := rfl

/-! Claim theorems. -/

/-- C1: drv_button_attach_callback returns -RT_ERROR and mutates nothing (the
whole state, in particular every callback binding of every entity, is returned
unchanged) whenever the name does not resolve to a registered button entity or
the callback is absent; otherwise it installs the callback via the engine
attach on the resolved entity and returns RT_EOK. -/
theorem C1_attach_invalid_args_no_mutation (st : SysState) (name : Option String)
    (event : Button_Event) (cb : Option Callback) :
    ((drv_button_get_handle name = none ∨ cb = none) →
      drv_button_attach_callback st name event cb = (-RT_ERROR, st)) ∧
    (∀ ref c, drv_button_get_handle name = some ref → cb = some c →
      (drv_button_attach_callback st name event cb).1 = RT_EOK ∧
      (drv_button_attach_callback st name event cb).2 = Button_Attach_at st ref event c ∧
      ((drv_button_attach_callback st name event cb).2.buttons ref).event_table event = some c) := by
  constructor
  · exact fun h => attach_fail st name event cb h
  · intro ref c href hcb
    subst hcb
    rw [attach_success st name ref event c href]
    refine ⟨rfl, rfl, ?_⟩
    simp [Button_Attach_at, Button_Attach_table_self]

/-- C1 witness: the unknown name "key9" fails with the state unchanged, an
absent callback fails with the state unchanged, and a valid attachment on
"key1" succeeds. -/
theorem C1_attach_witness :
    drv_button_attach_callback sampleState (some "key9") Button_Event.BUTTON_DOWM
        (some (Callback.user 5)) = (-RT_ERROR, sampleState) ∧
    drv_button_attach_callback sampleState (some "key1") Button_Event.BUTTON_DOWM
        none = (-RT_ERROR, sampleState) ∧
    (drv_button_attach_callback sampleState (some "key1") Button_Event.BUTTON_DOWM
        (some (Callback.user 5))).1 = RT_EOK :=
  ⟨(C1_attach_invalid_args_no_mutation sampleState (some "key9") Button_Event.BUTTON_DOWM
      (some (Callback.user 5))).1 (Or.inl (by decide)),
   (C1_attach_invalid_args_no_mutation sampleState (some "key1") Button_Event.BUTTON_DOWM
      none).1 (Or.inr rfl),
   ((C1_attach_invalid_args_no_mutation sampleState (some "key1") Button_Event.BUTTON_DOWM
      (some (Callback.user 5))).2 ButtonRef.key1_btn (Callback.user 5) rfl rfl).1⟩

/-- C2: drv_button_get_handle maps each configured name "key1" .. "key6" to
its (non-null) entity, and maps the null name and every name outside the
configured set to the null handle, never to an entity. -/
theorem C2_lookup_configured_and_unknown :
    drv_button_get_handle (some "key1") = some ButtonRef.key1_btn ∧
    drv_button_get_handle (some "key2") = some ButtonRef.key2_btn ∧
    drv_button_get_handle (some "key3") = some ButtonRef.key3_btn ∧
    drv_button_get_handle (some "key4") = some ButtonRef.key4_btn ∧
    drv_button_get_handle (some "key5") = some ButtonRef.key5_btn ∧
    drv_button_get_handle (some "key6") = some ButtonRef.key6_btn ∧
    drv_button_get_handle none = none ∧
    ∀ s : String, s ∉ validNames → drv_button_get_handle (some s) = none :=
  ⟨rfl, rfl, rfl, rfl, rfl, rfl, rfl, handle_unknown⟩

/-- C2 witness: the unknown name "key7" is outside the configured set and is
sent to the null handle. -/
theorem C2_lookup_witness :
    "key7" ∉ validNames ∧ drv_button_get_handle (some "key7") = none :=
  ⟨by decide, C2_lookup_configured_and_unknown.2.2.2.2.2.2.2 "key7" (by decide)⟩

/-- C3: lookup is injective over the configured name set, and each of the six
entities is returned for exactly one configured name (namely the name the
driver gave it). -/
theorem C3_lookup_injective :
    (∀ m n : String, m ∈ validNames → n ∈ validNames → m ≠ n →
      drv_button_get_handle (some m) ≠ drv_button_get_handle (some n)) ∧
    (∀ ref : ButtonRef,
      nameOf ref ∈ validNames ∧
      drv_button_get_handle (some (nameOf ref)) = some ref ∧
      ∀ s : String, s ∈ validNames → drv_button_get_handle (some s) = some ref →
        s = nameOf ref) := by
  constructor
  · intro m n hm hn hne
    simp only [validNames, List.mem_cons, List.not_mem_nil, or_false] at hm hn
    rcases hm with rfl | rfl | rfl | rfl | rfl | rfl <;>
      rcases hn with rfl | rfl | rfl | rfl | rfl | rfl <;>
        first
          | exact absurd rfl hne
          | decide
  · intro ref
    refine ⟨by cases ref <;> decide, handle_nameOf ref, ?_⟩
    intro s hs hsr
    simp only [validNames, List.mem_cons, List.not_mem_nil, or_false] at hs
    rcases hs with rfl | rfl | rfl | rfl | rfl | rfl <;>
      cases ref <;>
        first
          | rfl
          | exact absurd hsr (by decide)

/-- C3 witness: the distinct configured names "key1" and "key2" resolve to
distinct entities, and "key1" is the unique configured name resolving to the
first entity. -/
theorem C3_lookup_witness :
    drv_button_get_handle (some "key1") ≠ drv_button_get_handle (some "key2") ∧
    drv_button_get_handle (some (nameOf ButtonRef.key1_btn)) = some ButtonRef.key1_btn :=
  ⟨C3_lookup_injective.1 "key1" "key2" (by decide) (by decide) (by decide),
   (C3_lookup_injective.2 ButtonRef.key1_btn).2.1⟩

/-- C4: on the null name and on every name outside the configured set, both
drv_button_get_state and drv_button_get_event return the NONE_TRIGGER
sentinel (and, being total Lean functions, they complete normally). -/
theorem C4_query_unknown_sentinel (st : SysState) :
    (drv_button_get_state st none).1 = Button_Event.NONE_TRIGGER ∧
    (drv_button_get_event st none).1 = Button_Event.NONE_TRIGGER ∧
    ∀ s : String, s ∉ validNames →
      (drv_button_get_state st (some s)).1 = Button_Event.NONE_TRIGGER ∧
      (drv_button_get_event st (some s)).1 = Button_Event.NONE_TRIGGER := by
  refine ⟨rfl, rfl, fun s hs => ?_⟩
  constructor
  · unfold drv_button_get_state
    rw [handle_unknown s hs]
  · unfold drv_button_get_event
    rw [handle_unknown s hs]

/-- C4 witness: the unknown name "foo" answers NONE_TRIGGER on both queries of
a concrete state. -/
theorem C4_query_witness :
    "foo" ∉ validNames ∧
    (drv_button_get_state sampleState (some "foo")).1 = Button_Event.NONE_TRIGGER ∧
    (drv_button_get_event sampleState (some "foo")).1 = Button_Event.NONE_TRIGGER :=
  ⟨by decide,
   ((C4_query_unknown_sentinel sampleState).2.2 "foo" (by decide)).1,
   ((C4_query_unknown_sentinel sampleState).2.2 "foo" (by decide)).2⟩

/-- C5: after drv_button_attach_callback succeeds for a name resolving to a
registered entity with event kind K and callback cb, a poll tick whose engine
emits kind K on that entity invokes exactly cb, exactly once, synchronously
within that tick (its invocation trace restricted to the entity is exactly
one call of cb); and any registered entity whose emitted kind has no bound
callback gets the transition recorded in current_event while contributing no
invocation at all. -/
theorem C5_dispatch_exactly_once (st : SysState) (name : Option String)
    (ref : ButtonRef) (K : Button_Event) (cb : Callback)
    (emit : ButtonRef → Option Button_Event)
    (href : drv_button_get_handle name = some ref)
    (hreg : st.registered ref = true)
    (hemit : emit ref = some K) :
    (((drv_button_process emit
        (drv_button_attach_callback st name K (some cb)).2).2.filter
        (fun p => decide (p.1 = ref))).map Prod.snd = [cb]) ∧
    (∀ r E, (drv_button_attach_callback st name K (some cb)).2.registered r = true →
      emit r = some E →
      ((drv_button_attach_callback st name K (some cb)).2.buttons r).event_table E = none →
      ((drv_button_process emit
          (drv_button_attach_callback st name K (some cb)).2).1.buttons r).current_event = E ∧
      ((drv_button_process emit
          (drv_button_attach_callback st name K (some cb)).2).2.filter
          (fun p => decide (p.1 = r))) = []) := by
  have h2 : (drv_button_attach_callback st name K (some cb)).2 = Button_Attach_at st ref K cb := by
    rw [attach_success st name ref K cb href]
  rw [h2]
  constructor
  · have hreg2 : (Button_Attach_at st ref K cb).registered ref = true := hreg
    have hcb : ((Button_Attach_at st ref K cb).buttons ref).event_table K = some cb := by
      simp [Button_Attach_at, Button_Attach_table_self]
    unfold drv_button_process
    rw [Button_Process_trace, pollTrace_filter,
      traceFor_hit emit (Button_Attach_at st ref K cb) ref K cb hreg2 hemit hcb]
    rfl
  · intro r E hr hE hnone
    refine ⟨Button_Process_records emit (Button_Attach_at st ref K cb) r E hr hE, ?_⟩
    unfold drv_button_process
    rw [Button_Process_trace, pollTrace_filter,
      traceFor_miss emit (Button_Attach_at st ref K cb) r E hr hE hnone]

/-- C5 witness: starting from the initialized state, attach a user callback to
the press kind of "key1"; a tick emitting a press on key1 and nothing else
invokes that callback exactly once. -/
theorem C5_dispatch_witness :
    ((drv_button_process
        (fun r => if r = ButtonRef.key1_btn then some Button_Event.BUTTON_DOWM else none)
        (drv_button_attach_callback initedState (some "key1") Button_Event.BUTTON_DOWM
          (some (Callback.user 7))).2).2.filter
        (fun p => decide (p.1 = ButtonRef.key1_btn))).map Prod.snd = [Callback.user 7] :=
  (C5_dispatch_exactly_once initedState (some "key1") ButtonRef.key1_btn
    Button_Event.BUTTON_DOWM (Callback.user 7)
    (fun r => if r = ButtonRef.key1_btn then some Button_Event.BUTTON_DOWM else none)
    rfl rfl (by decide)).1

/-- C6: drv_button_init returns RT_EOK in every case.  The board
pin-configuration call it makes (rt_pin_mode) returns no status, so no failure
can reach the driver: the claim's failure case is vacuous, and the return
value is the success indicator always. -/
theorem C6_init_returns_eok (st : SysState) :
    (drv_button_init st).1 = RT_EOK ∧ (drv_button_init st).1 ≠ -RT_ERROR := by
  rw [drv_button_init_eq]
  exact ⟨rfl, by decide⟩

/-- C7: drv_button_init is idempotent: a second call also returns RT_EOK and
leaves the registry in exactly the state of a single call, with the same six
entities carrying the same names, level sources and trigger levels, and the
same pin configuration. -/
theorem C7_init_idempotent (st : SysState) :
    (drv_button_init st).1 = RT_EOK ∧
    (drv_button_init (drv_button_init st).2).1 = RT_EOK ∧
    (drv_button_init (drv_button_init st).2).2 = (drv_button_init st).2 ∧
    (drv_button_init (drv_button_init st).2).2.pin_mode =
      (fun _ => some PinMode.PIN_MODE_INPUT_PULLUP) ∧
    ∀ r : ButtonRef,
      ((drv_button_init (drv_button_init st).2).2.buttons r).Name = nameOf r ∧
      ((drv_button_init (drv_button_init st).2).2.buttons r).level_source = srcOf r ∧
      ((drv_button_init (drv_button_init st).2).2.buttons r).trigger_level = KEY_TRIGGER_LEVEL := by
  have hB := drv_button_init_eq (drv_button_init st).2
  have hA := drv_button_init_eq st
  rw [hB, hA]
  exact ⟨rfl, rfl, rfl, rfl, fun r => ⟨rfl, rfl, rfl⟩⟩

/-- C8: drv_button_deinit always returns RT_EOK, releases all six entities
from the detection engine (the registered set becomes empty), and is
idempotent: a second call produces the same result and final state. -/
theorem C8_deinit_idempotent (st : SysState) :
    (drv_button_deinit st).1 = RT_EOK ∧
    (∀ r : ButtonRef, (drv_button_deinit st).2.registered r = false) ∧
    drv_button_deinit (drv_button_deinit st).2 = drv_button_deinit st := by
  have hB := drv_button_deinit_eq (drv_button_deinit st).2
  have hA := drv_button_deinit_eq st
  rw [hB, hA]
  exact ⟨rfl, fun r => rfl, rfl⟩

/-- C9: drv_button_get_state and drv_button_get_event are pure reads: on every
name the returned state is the input state, so every entity's name, level
source, trigger level, callback bindings, current_state and current_event are
identical before and after the call, as is the registered set. -/
theorem C9_queries_pure (st : SysState) (name : Option String) :
    (drv_button_get_state st name).2 = st ∧
    (drv_button_get_event st name).2 = st ∧
    ∀ r : ButtonRef,
      ((drv_button_get_state st name).2.buttons r).Name = (st.buttons r).Name ∧
      ((drv_button_get_state st name).2.buttons r).level_source = (st.buttons r).level_source ∧
      ((drv_button_get_state st name).2.buttons r).trigger_level = (st.buttons r).trigger_level ∧
      ((drv_button_get_state st name).2.buttons r).event_table = (st.buttons r).event_table ∧
      ((drv_button_get_state st name).2.buttons r).current_state = (st.buttons r).current_state ∧
      ((drv_button_get_event st name).2.buttons r).current_event = (st.buttons r).current_event ∧
      (drv_button_get_state st name).2.registered r = st.registered r := by
  have h1 : (drv_button_get_state st name).2 = st := by
    unfold drv_button_get_state
    cases drv_button_get_handle name <;> rfl
  have h2 : (drv_button_get_event st name).2 = st := by
    unfold drv_button_get_event
    cases drv_button_get_handle name <;> rfl
  refine ⟨h1, h2, fun r => ?_⟩
  rw [h1, h2]
  exact ⟨rfl, rfl, rfl, rfl, rfl, rfl, rfl⟩

/-- C10: when drv_button_init returns, every entity has the driver's internal
logging callback button_callback bound to every event kind (installed through
the wildcard attach), so no kind is unhandled; and a later successful
drv_button_attach_callback for a specific kind replaces that default for
exactly that kind, leaving the default on every other kind. -/
theorem C10_default_callback (st : SysState) :
    (∀ r k, ((drv_button_init st).2.buttons r).event_table k =
      some Callback.button_callback) ∧
    (∀ name ref c K, drv_button_get_handle name = some ref →
      K ≠ Button_Event.BUTTON_ALL_RIGGER →
      ((drv_button_attach_callback (drv_button_init st).2 name K (some c)).2.buttons ref).event_table K = some c ∧
      ∀ k, k ≠ K →
        ((drv_button_attach_callback (drv_button_init st).2 name K (some c)).2.buttons ref).event_table k =
          some Callback.button_callback) := by
  simp only [drv_button_init_eq]
  constructor
  · exact fun r k => rfl
  · intro name ref c K href hK
    have h2 : (drv_button_attach_callback initedState name K (some c)).2 =
        Button_Attach_at initedState ref K c := by
      rw [attach_success initedState name ref K c href]
    rw [h2]
    have hb : (Button_Attach_at initedState ref K c).buttons ref =
        Button_Attach (initedState.buttons ref) K c := by
      simp [Button_Attach_at]
    constructor
    · rw [hb]
      exact Button_Attach_table_self (initedState.buttons ref) K c
    · intro k hk
      rw [hb, Button_Attach_table_other (initedState.buttons ref) K k c hK hk]
      rfl

/-- C10 witness: after initialization every kind on key2 runs
button_callback; attaching a user callback for the long-press kind replaces
the default for that kind only. -/
theorem C10_default_witness :
    ((drv_button_init sampleState).2.buttons ButtonRef.key2_btn).event_table
        Button_Event.BUTTON_LONG = some Callback.button_callback ∧
    ((drv_button_attach_callback (drv_button_init sampleState).2 (some "key2")
        Button_Event.BUTTON_LONG (some (Callback.user 3))).2.buttons
        ButtonRef.key2_btn).event_table Button_Event.BUTTON_LONG =
      some (Callback.user 3) ∧
    ((drv_button_attach_callback (drv_button_init sampleState).2 (some "key2")
        Button_Event.BUTTON_LONG (some (Callback.user 3))).2.buttons
        ButtonRef.key2_btn).event_table Button_Event.BUTTON_UP =
      some Callback.button_callback :=
  ⟨(C10_default_callback sampleState).1 ButtonRef.key2_btn Button_Event.BUTTON_LONG,
   ((C10_default_callback sampleState).2 (some "key2") ButtonRef.key2_btn
      (Callback.user 3) Button_Event.BUTTON_LONG rfl (by decide)).1,
   ((C10_default_callback sampleState).2 (some "key2") ButtonRef.key2_btn
      (Callback.user 3) Button_Event.BUTTON_LONG rfl (by decide)).2
      Button_Event.BUTTON_UP (by decide)⟩

end DrvButton
